import Mathlib

/-!
# Verification of the `VISADevice` instrument-session core (src/VISADevice.h)

A shallow embedding of the `VISADevice` class from `src/VISADevice.h`.

Modelling conventions:

* C++ `std::string` values and raw byte buffers are both modelled as
  `List Nat` (lists of byte values); embedded NUL bytes matter for several
  operations, which rules out Lean's `String` as a faithful carrier.
* Every call into the NI-VISA driver is modelled by an explicit event
  (`DriverCall`).  Each member function returns, besides its C++ return
  value and the updated object state, the list of driver calls it performed,
  in order.  The driver's *responses* (status codes, values written through
  out-pointers, bytes left in caller-supplied buffers) are passed to the
  model functions as extra arguments, so each function is a pure function
  of the object state and the driver's behaviour on that call.
* `ViStatus` is a signed integer: `Int`.  `ViUInt8` / `ViUInt32` cells are
  `Nat` values reduced mod `2^8` / `2^32` where the code performs a cast.
* Constants `VI_SUCCESS`, `VI_FIND_BUFLEN`, `VI_ATTR_TERMCHAR`, ... come
  from the third-party NI-VISA header `visa.h` (not part of this
  repository); their standard NI-VISA values are used.
* C++ scalar data members without an initializer hold an *indeterminate*
  value until assigned.  The constructor model therefore takes the
  indeterminate initial values of `initialized_`, `open_`, `session_`,
  `device_`, `termChar_` and `timeout_` as parameters (the constructor's
  init-list only initializes `closeCmd_` and `lastError_`).
-/

namespace VISA

/-- Constant `VI_SUCCESS` from the NI-VISA header `visa.h` (value `0`). -/
def VI_SUCCESS : Int := 0

/-- Constant `VI_FIND_BUFLEN` from the NI-VISA header `visa.h` (value `256`). -/
def VI_FIND_BUFLEN : Nat := 256

/-- Constant `ERROR_MSG_MAX` from `src/VISADevice.h` line 56. -/
def ERROR_MSG_MAX : Nat := 512

/-- Constant `ATTR_MAX_LENGTH` from `src/VISADevice.h` line 61. -/
def ATTR_MAX_LENGTH : Nat := 1024

/-- Constant `VI_ATTR_TERMCHAR` from the NI-VISA header `visa.h`. -/
def VI_ATTR_TERMCHAR : Nat := 0x3FFF0018

/-- Constant `VI_ATTR_MANF_NAME` from the NI-VISA header `visa.h`. -/
def VI_ATTR_MANF_NAME : Nat := 0x3FFF0072

/-- Constant `VI_ATTR_MODEL_NAME` from the NI-VISA header `visa.h`. -/
def VI_ATTR_MODEL_NAME : Nat := 0x3FFF0077

/-- Constant `VI_ATTR_INTF_INST_NAME` from the NI-VISA header `visa.h`. -/
def VI_ATTR_INTF_INST_NAME : Nat := 0x3FFF00E9

/-- A byte string: the model of both `std::string` and raw C byte buffers. -/
abbrev Bytes := List Nat

/-- ASCII string literal as a byte list (all literals in the source are
ASCII, so code points coincide with bytes). -/
def strBytes (s : String) : Bytes := s.data.map Char.toNat

/-- Model of `std::string(char* buf)`: reads `buf` up to (excluding) the first NUL
byte.  The source always NUL-terminates the buffer before invoking it. -/
def cString (buf : Bytes) : Bytes := buf.takeWhile (· ≠ 0)

/-- One call into the NI-VISA driver (or the fixed sleep in `query`),
recording the inputs the wrapper hands to the driver. -/
inductive DriverCall where
  | openDefaultRM : DriverCall
  | openDev (deviceStr : Bytes) (accessMode : Nat) (timeout : Nat) : DriverCall
  | closeHandle (handle : Nat) : DriverCall
  | getAttribute (handle : Nat) (attrId : Nat) : DriverCall
  | setAttr (handle : Nat) (attrId : Nat) (state : Nat) : DriverCall
  | writeDev (handle : Nat) (buf : Bytes) : DriverCall
  | readDev (handle : Nat) (bufSize : Nat) : DriverCall
  | findRsrc (expr : Bytes) : DriverCall
  | findNext : DriverCall
  | statusDesc (handle : Nat) (status : Int) : DriverCall
  | sleepFor (ms : Nat) : DriverCall
deriving Repr, DecidableEq

/-- The data members of class `VISADevice` (`src/VISADevice.h` lines
474-487).  `session_`/`device_` are opaque `ViSession` handles (`Nat`);
`termChar_` is the `ViUInt8` cell, `timeout_` the `ViUInt32` cell. -/
structure VISADevice where
  session_ : Nat
  device_ : Nat
  initialized_ : Bool
  open_ : Bool
  closeCmd_ : Bytes
  lastError_ : Bytes
  termChar_ : Nat
  timeout_ : Nat
deriving Repr, DecidableEq

/-- Model of `VISADevice::processStatus` (lines 405-446).  `descBuf` is the content
the driver's `viStatusDesc` leaves in the 512-byte stack buffer `buf`
(arbitrary bytes; theorems restrict its length to `ERROR_MSG_MAX`).
Returns `(success, new state, driver calls made)`. -/
def processStatus (st : VISADevice) (status : Int) (descBuf : Bytes) :
    Bool × VISADevice × List DriverCall :=
  if status < VI_SUCCESS then
    if st.open_ || st.initialized_ then
      -- tmp := device_ if open_ else session_; viStatusDesc(tmp, status, buf)
      let tmp : Nat := if st.open_ then st.device_ else st.session_
      -- buf[ERROR_MSG_MAX-1] = '\0'; lastError_ = std::string(buf)
      let buf := descBuf.set (ERROR_MSG_MAX - 1) 0
      (false, { st with lastError_ := cString buf },
        [DriverCall.statusDesc tmp status])
    else
      (false,
        { st with
          lastError_ := strBytes ("Neither session nor device is initialized") },
        [])
  else
    (true, st, [])

/-- Model of `VISADevice::getLastError` (lines 395-400): returns `lastError_` and
resets it to the empty string. -/
def getLastError (st : VISADevice) : Bytes × VISADevice :=
  (st.lastError_, { st with lastError_ := [] })

/-- The `VISADevice` constructor (lines 101-111).  The init-list sets only
`closeCmd_` and `lastError_`; the other scalar members keep indeterminate
values, supplied here as `session0 device0 init0 open0 term0 tmo0`.
`rmStatus` is what `viOpenDefaultRM` returns and `sessionNew` the handle it
writes through `&session_` on success; `descBuf` feeds the `processStatus`
failure path.  Returns `(constructed object, driver calls made)`. -/
def construct (init0 open0 : Bool) (session0 device0 term0 tmo0 : Nat)
    (rmStatus : Int) (sessionNew : Nat) (descBuf : Bytes) :
    VISADevice × List DriverCall :=
  let st0 : VISADevice :=
    { session_ := if VI_SUCCESS ≤ rmStatus then sessionNew else session0
      device_ := device0
      initialized_ := init0
      open_ := open0
      closeCmd_ := []
      lastError_ := []
      termChar_ := term0
      timeout_ := tmo0 }
  let r := processStatus st0 rmStatus descBuf
  if r.1 then
    ({ r.2.1 with initialized_ := true }, DriverCall.openDefaultRM :: r.2.2)
  else
    (r.2.1, DriverCall.openDefaultRM :: r.2.2)

/-- Model of `VISADevice::isInitialized` (lines 192-195). -/
def isInitialized (st : VISADevice) : Bool := st.initialized_

/-- Model of `VISADevice::isOpen` (lines 197-200). -/
def isOpen (st : VISADevice) : Bool := st.open_

/-- The private overload `VISADevice::write(ViByte*, ViUInt32)` (lines
448-463).  `wStatus` is `viWrite`'s return status, `descBuf` feeds the
`processStatus` failure path (`nWritten` is never consulted by the source,
so it is not modelled). -/
def writeBuf (st : VISADevice) (msg : Bytes)
    (wStatus : Int) (descBuf : Bytes) :
    Bool × VISADevice × List DriverCall :=
  if st.initialized_ && st.open_ then
    let r := processStatus st wStatus descBuf
    (r.1, r.2.1, DriverCall.writeDev st.device_ msg :: r.2.2)
  else
    (false, st, [])

/-- The framed buffer that `VISADevice::write(const std::string&)` (lines
312-330) builds: `msg.length() + 1` bytes, the message followed by
`static_cast<ViByte>(termChar_)`.  (Defined behaviour requires
`msg.length() + 1 < 2^32`, since the allocation size is a `ViUInt32`
cast of it; theorems carry that bound.) -/
def frameMsg (st : VISADevice) (msg : Bytes) : Bytes :=
  msg ++ [st.termChar_ % 256]

/-- Model of `VISADevice::write(const std::string&)` (lines 312-330): frames the
message with the terminator byte and hands it to the private raw write. -/
def write (st : VISADevice) (msg : Bytes)
    (wStatus : Int) (descBuf : Bytes) :
    Bool × VISADevice × List DriverCall :=
  writeBuf st (frameMsg st msg) wStatus descBuf

/-- Model of `VISADevice::read` (lines 360-379).  `rStatus` is `viRead`'s return
status, `recvBuf` the content the driver leaves in the `bufSize`-byte
receive buffer, `retSize` the count it writes through `&retSize`, and
`descBuf` feeds the `processStatus` failure path.  On success the reply is
`std::string(buf, retSize)`: the first `retSize` bytes of the buffer. -/
def read (st : VISADevice) (bufSize : Nat)
    (rStatus : Int) (recvBuf : Bytes) (retSize : Nat) (descBuf : Bytes) :
    Bytes × VISADevice × List DriverCall :=
  if st.initialized_ && st.open_ then
    let r := processStatus st rStatus descBuf
    let reply : Bytes := if r.1 then (recvBuf.take bufSize).take retSize else []
    (reply, r.2.1, DriverCall.readDev st.device_ bufSize :: r.2.2)
  else
    ([], st, [])

/-- Model of `VISADevice::query` (lines 340-358): a `write`, then — only if the
write succeeded — a fixed sleep of `timeout_` milliseconds followed by a
`read()` with the default 1024-byte buffer. -/
def query (st : VISADevice) (msg : Bytes)
    (wStatus : Int) (descBufW : Bytes)
    (rStatus : Int) (recvBuf : Bytes) (retSize : Nat) (descBufR : Bytes) :
    Bytes × VISADevice × List DriverCall :=
  let w := write st msg wStatus descBufW
  if w.1 then
    let r := read w.2.1 0x00000400 rStatus recvBuf retSize descBufR
    (r.1, r.2.1, w.2.2 ++ DriverCall.sleepFor w.2.1.timeout_ :: r.2.2)
  else
    ([], w.2.1, w.2.2)

/-- Model of `VISADevice::close` (lines 171-190).  If open: best-effort write of the
registered close command (failure only sets a warning in `lastError_`),
then `viClose(device_)`; `open_` is cleared only if that close succeeds.
Returns `!open_`.  `wStatus`/`descBufW` serve the close-command write,
`cStatus`/`descBufC` the `viClose` call. -/
def close (st : VISADevice)
    (wStatus : Int) (descBufW : Bytes) (cStatus : Int) (descBufC : Bytes) :
    Bool × VISADevice × List DriverCall :=
  if st.open_ then
    let s1 :=
      if st.closeCmd_ ≠ [] then
        let w := write st st.closeCmd_ wStatus descBufW
        if w.1 then (w.2.1, w.2.2)
        else
          ({ w.2.1 with
              lastError_ := strBytes ("[WARN]: failed to send onClose command!\n") },
            w.2.2)
      else (st, [])
    let r := processStatus s1.1 cStatus descBufC
    let st2 := if r.1 then { r.2.1 with open_ := false } else r.2.1
    (!st2.open_, st2,
      s1.2 ++ DriverCall.closeHandle s1.1.device_ :: r.2.2)
  else
    (true, st, [])

/-- Model of `VISADevice::open` (lines 136-169).  Stores the timeout, then (only if
initialized) `viOpen`; on success marks the device open and fetches
`VI_ATTR_TERMCHAR` into the `ViUInt8` cell `termChar_`; if that fetch
fails, calls `close()`.  `oStatus` is `viOpen`'s status and `devNew` the
handle it writes; `tStatus` is `viGetAttribute`'s status and `termVal` the
byte it stores through `&termChar_`; `wStatus`/`cStatus`/`descBuf*` serve
the embedded `close()` as in `close`. -/
def openDev (st : VISADevice) (deviceStr : Bytes)
    (accessMode : Nat) (timeout : Nat)
    (oStatus : Int) (devNew : Nat) (descBufO : Bytes)
    (tStatus : Int) (termVal : Nat) (descBufT : Bytes)
    (wStatus : Int) (descBufW : Bytes) (cStatus : Int) (descBufC : Bytes) :
    Bool × VISADevice × List DriverCall :=
  let st := { st with timeout_ := timeout % 2 ^ 32 }
  if st.initialized_ then
    let r1 := processStatus
      { st with device_ := if VI_SUCCESS ≤ oStatus then devNew else st.device_ }
      oStatus descBufO
    let tr1 := DriverCall.openDev deviceStr accessMode (timeout % 2 ^ 32) :: r1.2.2
    if r1.1 then
      let st1 := { r1.2.1 with open_ := true, termChar_ := termVal % 256 }
      let r2 := processStatus st1 tStatus descBufT
      let tr2 := tr1 ++ DriverCall.getAttribute st1.device_ VI_ATTR_TERMCHAR :: r2.2.2
      if r2.1 then
        (true, r2.2.1, tr2)
      else
        let c := close r2.2.1 wStatus descBufW cStatus descBufC
        (false, c.2.1, tr2 ++ c.2.2)
    else
      (false, r1.2.1, tr1)
  else
    (false, st, [])

/-- Model of `VISADevice::setAttribute` (lines 256-268): only if open, a
`viSetAttribute` call run through `processStatus`. -/
def setAttribute (st : VISADevice) (attrId : Nat) (state : Nat)
    (sStatus : Int) (descBuf : Bytes) :
    Bool × VISADevice × List DriverCall :=
  if st.open_ then
    let r := processStatus st sStatus descBuf
    (r.1, r.2.1, DriverCall.setAttr st.device_ attrId state :: r.2.2)
  else
    (false, st, [])

/-- Model of `VISADevice::getScalarAttribute<T>` (lines 270-288) for an arithmetic
`T` modelled as `Int`.  `ptrVal0` is the value the caller's out-cell holds
before the call; `gStatus`/`attrVal` are the driver's status and the value
it writes through the pointer (written only when the call is made).
Returns `(success, value now in the out-cell, state, calls)`. -/
def getScalarAttribute (st : VISADevice) (attrId : Nat) (ptrVal0 : Int)
    (gStatus : Int) (attrVal : Int) (descBuf : Bytes) :
    Bool × Int × VISADevice × List DriverCall :=
  if st.open_ then
    let r := processStatus st gStatus descBuf
    (r.1, attrVal, r.2.1, DriverCall.getAttribute st.device_ attrId :: r.2.2)
  else
    (false, ptrVal0, st, [])

/-- Model of `VISADevice::getStringAttribute` (lines 290-310): only if open,
`viGetAttribute` into a 1024-byte buffer; the status is passed to
`processStatus` but its result is *discarded*; the last buffer byte is
forced to NUL and the NUL-truncated contents are returned.  `attrBuf` is
the buffer content after the driver call (theorems fix its length to
`ATTR_MAX_LENGTH`). -/
def getStringAttribute (st : VISADevice) (attrId : Nat)
    (gStatus : Int) (attrBuf : Bytes) (descBuf : Bytes) :
    Bytes × VISADevice × List DriverCall :=
  if st.open_ then
    let r := processStatus st gStatus descBuf
    let buf := attrBuf.set (ATTR_MAX_LENGTH - 1) 0
    (cString buf, r.2.1, DriverCall.getAttribute st.device_ attrId :: r.2.2)
  else
    ([], st, [])

/-- Model of `VISADevice::getDeviceDescription` (lines 381-393): only if open,
the concatenation of the manufacturer, model and interface-instance string
attributes joined by `" : "`.  Each embedded `getStringAttribute` takes
its own driver responses. -/
def getDeviceDescription (st : VISADevice)
    (s1 : Int) (b1 : Bytes) (d1 : Bytes)
    (s2 : Int) (b2 : Bytes) (d2 : Bytes)
    (s3 : Int) (b3 : Bytes) (d3 : Bytes) :
    Bytes × VISADevice × List DriverCall :=
  if st.open_ then
    let g1 := getStringAttribute st VI_ATTR_MANF_NAME s1 b1 d1
    let g2 := getStringAttribute g1.2.1 VI_ATTR_MODEL_NAME s2 b2 d2
    let g3 := getStringAttribute g2.2.1 VI_ATTR_INTF_INST_NAME s3 b3 d3
    (g1.1 ++ strBytes (" : ") ++ g2.1 ++ strBytes (" : ") ++ g3.1,
      g3.2.1, g1.2.2 ++ g2.2.2 ++ g3.2.2)
  else
    ([], st, [])

/-- One `viFindNext` driver response: the status, the content it leaves in
the shared `VI_FIND_BUFLEN`-byte buffer, and the `viStatusDesc` buffer for
the `processStatus` failure path. -/
structure FindResp where
  status : Int
  buf : Bytes
  descBuf : Bytes
deriving Repr, DecidableEq

/-- The `viFindNext` loop of `VISADevice::findInstruments` (lines 234-247):
`n` entries of the result vector remain to fill; each successful step NUL-
terminates the buffer's last byte and stores its NUL-truncated contents; a
failing step breaks, leaving the remaining entries as the empty strings
`resize` created.  (An exhausted response list is treated as a break; the
theorems always supply `n` responses.) -/
def findNextLoop (st : VISADevice) (resp : List FindResp) (n : Nat) :
    List Bytes × VISADevice × List DriverCall :=
  match n, resp with
  | 0, _ => ([], st, [])
  | n + 1, [] => (List.replicate (n + 1) [], st, [])
  | n + 1, r :: rest =>
    let p := processStatus st r.status r.descBuf
    if p.1 then
      let entry := cString ((r.buf.take VI_FIND_BUFLEN).set (VI_FIND_BUFLEN - 1) 0)
      let rec' := findNextLoop p.2.1 rest n
      (entry :: rec'.1, rec'.2.1,
        DriverCall.findNext :: p.2.2 ++ rec'.2.2)
    else
      (List.replicate (n + 1) [], p.2.1, DriverCall.findNext :: p.2.2)

/-- Model of `VISADevice::findInstruments` (lines 212-254).  `fStatus` is
`viFindRsrc`'s status, `retSize` the match count it reports, `firstBuf`
the content it leaves in the `VI_FIND_BUFLEN`-byte buffer, `descBuf` the
`processStatus` failure-path buffer, and `resp` the successive `viFindNext`
responses.  On success the first entry is `std::string(buf, VI_FIND_BUFLEN)`
— exactly `VI_FIND_BUFLEN` bytes, NULs included — and the remaining
`retSize - 1` entries come from the `viFindNext` loop.  (`retSize = 0`
with a successful discovery would index a zero-length vector in the C++ —
undefined behaviour; the model returns the empty list there and theorems
assume `1 ≤ retSize`, which the driver guarantees on success.) -/
def findInstruments (st : VISADevice) (expr : Bytes)
    (fStatus : Int) (retSize : Nat) (firstBuf : Bytes) (descBuf : Bytes)
    (resp : List FindResp) :
    List Bytes × VISADevice × List DriverCall :=
  if st.initialized_ then
    let p := processStatus st fStatus descBuf
    let tr0 := DriverCall.findRsrc expr :: p.2.2
    if p.1 then
      if retSize = 0 then ([], p.2.1, tr0)
      else
        let first := firstBuf.take VI_FIND_BUFLEN
        let l := findNextLoop p.2.1 resp (retSize - 1)
        (first :: l.1, l.2.1, tr0 ++ l.2.2)
    else
      ([], p.2.1, tr0)
  else
    ([], st, [])

/-! ## Sample states for concrete witnesses -/

/-- A sample initialized, not-open device state (a `lastError_` is pending
so that frame conditions on it are meaningful). -/
def sampleInit : VISADevice :=
  { session_ := 1, device_ := 0, initialized_ := true, open_ := false,
    closeCmd_ := [], lastError_ := [79, 75], termChar_ := 0, timeout_ := 0 }

/-! ## Claims -/

/-- C5: `processStatus(status)` returns true iff `status ≥ VI_SUCCESS`
(positive warning codes count as success, only negative codes fail), and
whenever it returns true the stored Last Error is left unchanged (indeed
the whole state is unchanged). -/
theorem processStatus_success_iff (st : VISADevice) (status : Int)
    (descBuf : Bytes) :
    ((processStatus st status descBuf).1 = true ↔ VI_SUCCESS ≤ status) ∧
    ((processStatus st status descBuf).1 = true →
      (processStatus st status descBuf).2.1.lastError_ = st.lastError_) := by
  unfold processStatus
  by_cases h : status < VI_SUCCESS
  · have hle : ¬ VI_SUCCESS ≤ status := by omega
    by_cases h2 : st.open_ || st.initialized_ <;> simp [h, h2, hle]
  · simp [h]
    omega

/-- Helper: a failing `write` never emits a sleep or a read driver call
(its trace is at most a `writeDev` followed by a `statusDesc`). -/
theorem write_trace_no_sleep_no_read (st : VISADevice) (msg : Bytes)
    (wStatus : Int) (descBuf : Bytes) :
    ∀ e ∈ (write st msg wStatus descBuf).2.2,
      (∀ ms, e ≠ DriverCall.sleepFor ms) ∧
      (∀ h bs, e ≠ DriverCall.readDev h bs) := by
  unfold write writeBuf processStatus
  by_cases h1 : st.initialized_ && st.open_
  · by_cases h2 : wStatus < VI_SUCCESS
    · by_cases h3 : st.open_ || st.initialized_ <;> simp [h1, h2, h3]
    · simp [h1, h2]
  · simp [h1]

/-- C5 witness: at `status = 3` on `sampleInit`, `processStatus` succeeds
and leaves the Last Error unchanged. -/
theorem processStatus_success_iff_witness :
    (((processStatus sampleInit 3 []).1 = true ↔ VI_SUCCESS ≤ 3) ∧
      (processStatus sampleInit 3 []).2.1.lastError_ = sampleInit.lastError_) :=
  ⟨(processStatus_success_iff sampleInit 3 []).1,
    (processStatus_success_iff sampleInit 3 []).2 (by decide)⟩

/-- C6: `getLastError` is a destructive read: it returns the stored
Last Error, and a second call with no intervening failing operation
returns the empty string. -/
theorem getLastError_destructive (st : VISADevice) :
    (getLastError st).1 = st.lastError_ ∧
    (getLastError (getLastError st).2).1 = [] := by
  simp [getLastError]

/-- C1: the constructor's init-list initializes only `closeCmd_` and
`lastError_`, so when `viOpenDefaultRM` fails (status `-1`) the member
`initialized_` is *never assigned* and keeps its indeterminate initial
value: if that indeterminate value is `true`, the constructed object
reports `isInitialized() = true`, contradicting the documented
`initialized_ = false`; with indeterminate value `false` it reports
`false` — the observable state depends on uninitialized memory. -/
theorem construct_fail_initialized_indeterminate :
    isInitialized (construct true false 0 0 0 0 (-1) 7 []).1 = true ∧
    isInitialized (construct false false 0 0 0 0 (-1) 7 []).1 = false := by
  decide

/-- C10: while the device is open, `getStringAttribute` discards the
status of the underlying `viGetAttribute` call: for *every* status
(failing or not) it returns the NUL-truncated contents of its bounded
buffer, so the returned string cannot distinguish a failed read from a
successful one; the status only flows into `processStatus`, whose sole
effect is on the stored Last Error. -/
theorem getStringAttribute_ignores_status (st : VISADevice) (attrId : Nat)
    (gS gS' : Int) (attrBuf dB dB' : Bytes)
    (hopen : st.open_ = true) :
    (getStringAttribute st attrId gS attrBuf dB).1 =
      cString (attrBuf.set (ATTR_MAX_LENGTH - 1) 0) ∧
    (getStringAttribute st attrId gS attrBuf dB).1 =
      (getStringAttribute st attrId gS' attrBuf dB').1 ∧
    (getStringAttribute st attrId gS attrBuf dB).2.1 =
      (processStatus st gS dB).2.1 := by
  simp [getStringAttribute, hopen]

/-- C10 witness: on an open device, a failing attribute read (status `-5`)
returns the same NUL-truncated buffer contents as a successful one
(status `0`). -/
theorem getStringAttribute_ignores_status_witness :
    ((getStringAttribute { sampleInit with open_ := true } 7 (-5)
        (65 :: 66 :: 0 :: [67]) []).1 =
      cString ((65 :: 66 :: 0 :: [67] : Bytes).set (ATTR_MAX_LENGTH - 1) 0) ∧
    (getStringAttribute { sampleInit with open_ := true } 7 (-5)
        (65 :: 66 :: 0 :: [67]) []).1 =
      (getStringAttribute { sampleInit with open_ := true } 7 0
        (65 :: 66 :: 0 :: [67]) []).1 ∧
    (getStringAttribute { sampleInit with open_ := true } 7 (-5)
        (65 :: 66 :: 0 :: [67]) []).2.1 =
      (processStatus { sampleInit with open_ := true } (-5) []).2.1) :=
  getStringAttribute_ignores_status { sampleInit with open_ := true } 7
    (-5) 0 (65 :: 66 :: 0 :: [67]) [] [] (by decide)

/-- C4: whenever the `write` inside `query(msg)` fails, `query(msg)`
returns the empty string, and its driver-call trace contains neither the
fixed sleep nor a read call. -/
theorem query_write_fail_no_delay_no_read (st : VISADevice) (msg : Bytes)
    (wStatus : Int) (dW : Bytes) (rStatus : Int) (recvBuf : Bytes)
    (retSize : Nat) (dR : Bytes)
    (hfail : (write st msg wStatus dW).1 = false) :
    (query st msg wStatus dW rStatus recvBuf retSize dR).1 = [] ∧
    ∀ e ∈ (query st msg wStatus dW rStatus recvBuf retSize dR).2.2,
      (∀ ms, e ≠ DriverCall.sleepFor ms) ∧
      (∀ h bs, e ≠ DriverCall.readDev h bs) := by
  have htr := write_trace_no_sleep_no_read st msg wStatus dW
  unfold query
  simp only [hfail]
  exact ⟨rfl, htr⟩

/-- C4 witness: a `write` failing with status `-3` on an open device makes
`query` return the empty string with no sleep and no read in its trace. -/
theorem query_write_fail_no_delay_no_read_witness :
    ((query { sampleInit with open_ := true } [65] (-3) [] 0 [] 0 []).1 = [] ∧
    ∀ e ∈ (query { sampleInit with open_ := true } [65] (-3) [] 0 [] 0 []).2.2,
      (∀ ms, e ≠ DriverCall.sleepFor ms) ∧
      (∀ h bs, e ≠ DriverCall.readDev h bs)) :=
  query_write_fail_no_delay_no_read { sampleInit with open_ := true } [65]
    (-3) [] 0 [] 0 [] (by decide)

/-- C7 counterexample: the claim's "(or the session is not initialized)"
disjunct fails on the code.  The constructor never initializes `open_`
(the same defect C1 records for `initialized_`), so a failed construction
can leave `initialized_ = false` with an indeterminate `open_ = true`;
in that state — session not initialized — `setAttribute`, which guards
only on `open_`, returns true (not its failure value), performs a driver
call, and with a failing status overwrites the stored Last Error. -/
theorem not_open_operations_counterexample :
    isOpen (construct false true 0 0 0 0 (-1) 7 []).1 = true ∧
    isInitialized (construct false true 0 0 0 0 (-1) 7 []).1 = false ∧
    (setAttribute (construct false true 0 0 0 0 (-1) 7 []).1 7 1 0 []).1 =
      true ∧
    (setAttribute (construct false true 0 0 0 0 (-1) 7 []).1 7 1 0
      []).2.2 ≠ [] ∧
    (setAttribute (construct false true 0 0 0 0 (-1) 7 []).1 7 1 (-1)
        [65]).2.1.lastError_ ≠
      (construct false true 0 0 0 0 (-1) 7 []).1.lastError_ := by
  decide

/-- C7 (amended): every open-requiring operation (`write`, `read`,
`query`, `setAttribute`, `getScalarAttribute`, `getStringAttribute`,
`getDeviceDescription`) invoked while the device is not open returns its
failure value (false / empty string), makes no driver call, and leaves
the whole state — in particular the stored Last Error — unchanged; when
the session is not initialized the same holds for `write`, `read` and
`query`, which additionally guard on `initialized_` (the four remaining
operations guard only on the open flag and are covered by the
counterexample when that flag's indeterminate value is true). -/
theorem operation_guards_are_noops (st st2 : VISADevice)
    (hopen : st.open_ = false) (hinit : st2.initialized_ = false)
    (msg : Bytes) (wS : Int) (dW : Bytes)
    (bufSize : Nat) (rS : Int) (recvBuf : Bytes) (retSize : Nat) (dR : Bytes)
    (attrId val : Nat) (sS : Int) (dS : Bytes)
    (ptrVal0 : Int) (gS : Int) (attrVal : Int) (attrBuf dG : Bytes)
    (s1 : Int) (b1 d1 : Bytes) (s2 : Int) (b2 d2 : Bytes)
    (s3 : Int) (b3 d3 : Bytes) :
    (write st msg wS dW = (false, st, []) ∧
    read st bufSize rS recvBuf retSize dR = ([], st, []) ∧
    query st msg wS dW rS recvBuf retSize dR = ([], st, []) ∧
    setAttribute st attrId val sS dS = (false, st, []) ∧
    getScalarAttribute st attrId ptrVal0 gS attrVal dG =
      (false, ptrVal0, st, []) ∧
    getStringAttribute st attrId gS attrBuf dG = ([], st, []) ∧
    getDeviceDescription st s1 b1 d1 s2 b2 d2 s3 b3 d3 = ([], st, [])) ∧
    (write st2 msg wS dW = (false, st2, []) ∧
    read st2 bufSize rS recvBuf retSize dR = ([], st2, []) ∧
    query st2 msg wS dW rS recvBuf retSize dR = ([], st2, [])) := by
  have hw : write st msg wS dW = (false, st, []) := by
    unfold write writeBuf
    simp [hopen]
  have hw2 : write st2 msg wS dW = (false, st2, []) := by
    unfold write writeBuf
    simp [hinit]
  refine ⟨⟨hw, ?_, ?_, ?_, ?_, ?_, ?_⟩, hw2, ?_, ?_⟩
  · unfold read
    simp [hopen]
  · unfold query
    simp [hw]
  · unfold setAttribute
    simp [hopen]
  · unfold getScalarAttribute
    simp [hopen]
  · unfold getStringAttribute
    simp [hopen]
  · unfold getDeviceDescription
    simp [hopen]
  · unfold read
    simp [hinit]
  · unfold query
    simp [hw2]

/-- C7 witness: on `sampleInit` (initialized, not open, pending Last
Error) all seven operations fail, make no driver call, and leave the
state unchanged; on a not-initialized state whose indeterminate open
flag is true, `write`, `read` and `query` still short-circuit. -/
theorem operation_guards_are_noops_witness :
    ((write sampleInit [65] 0 [] = (false, sampleInit, []) ∧
    read sampleInit 1024 0 [] 0 [] = ([], sampleInit, []) ∧
    query sampleInit [65] 0 [] 0 [] 0 [] = ([], sampleInit, []) ∧
    setAttribute sampleInit 7 1 0 [] = (false, sampleInit, []) ∧
    getScalarAttribute sampleInit 7 42 0 5 [] = (false, 42, sampleInit, []) ∧
    getStringAttribute sampleInit 7 0 [] [] = ([], sampleInit, []) ∧
    getDeviceDescription sampleInit 0 [] [] 0 [] [] 0 [] [] =
      ([], sampleInit, [])) ∧
    (write { sampleInit with initialized_ := false, open_ := true } [65] 0 [] =
      (false, { sampleInit with initialized_ := false, open_ := true }, []) ∧
    read { sampleInit with initialized_ := false, open_ := true }
        1024 0 [] 0 [] =
      ([], { sampleInit with initialized_ := false, open_ := true }, []) ∧
    query { sampleInit with initialized_ := false, open_ := true }
        [65] 0 [] 0 [] 0 [] =
      ([], { sampleInit with initialized_ := false, open_ := true }, []))) :=
  operation_guards_are_noops sampleInit
    { sampleInit with initialized_ := false, open_ := true }
    (by decide) (by decide)
    [65] 0 [] 1024 0 [] 0 [] 7 1 0 [] 42 0 5 [] [] 0 [] [] 0 [] [] 0 [] []

/-- Helper: `processStatus` on a success status returns `true` and leaves
the state untouched, with no driver call. -/
theorem processStatus_of_success (st : VISADevice) (status : Int)
    (d : Bytes) (h : VI_SUCCESS ≤ status) :
    processStatus st status d = (true, st, []) := by
  unfold processStatus
  simp [not_lt.mpr h]

/-- Helper: `processStatus` on a failing status reports failure. -/
theorem processStatus_fst_of_fail (st : VISADevice) (status : Int)
    (d : Bytes) (h : status < VI_SUCCESS) :
    (processStatus st status d).1 = false := by
  unfold processStatus
  by_cases h2 : st.open_ || st.initialized_ <;> simp [h, h2]

/-- Helper: on an initialized session, when both `viOpen` and the
terminator fetch succeed, `open` returns true and the resulting state is
the original one with the timeout stored, the new device handle, the
open flag set and the fetched terminator byte. -/
theorem openDev_success_eq (st : VISADevice) (dstr : Bytes) (am tmo : Nat)
    (oS : Int) (dN : Nat) (dO : Bytes) (tS : Int) (tv : Nat) (dT : Bytes)
    (wS : Int) (dW : Bytes) (cS : Int) (dC : Bytes)
    (hinit : st.initialized_ = true) (ho : VI_SUCCESS ≤ oS)
    (ht : VI_SUCCESS ≤ tS) :
    openDev st dstr am tmo oS dN dO tS tv dT wS dW cS dC =
      (true,
        { st with
            timeout_ := tmo % 2 ^ 32
            device_ := dN
            open_ := true
            termChar_ := tv % 256 },
        [DriverCall.openDev dstr am (tmo % 2 ^ 32),
         DriverCall.getAttribute dN VI_ATTR_TERMCHAR]) := by
  unfold openDev
  simp [hinit, ho, ht, processStatus_of_success]

/-- Helper: whenever the underlying `viClose` call succeeds, `close`
returns true and leaves the device not open (regardless of the close
command and of whether its best-effort write succeeds). -/
theorem close_success (st : VISADevice) (wS : Int) (dW : Bytes)
    (cS : Int) (dC : Bytes) (hc : VI_SUCCESS ≤ cS) :
    (close st wS dW cS dC).1 = true ∧
    (close st wS dW cS dC).2.1.open_ = false := by
  unfold close
  by_cases hop : st.open_
  · by_cases hemp : st.closeCmd_ = []
    · simp [hop, hemp, hc, processStatus_of_success]
    · by_cases hw : (write st st.closeCmd_ wS dW).1
      · simp [hop, hemp, hw, hc, processStatus_of_success]
      · simp [hop, hemp, hw, hc, processStatus_of_success]
  · simp [hop]

/-- C2 counterexample: on an initialized session, with `viOpen` succeeding
(status 0), the terminator fetch failing (status -1) and the subsequent
`viClose` *also failing* (status -1), `open` returns false but the device
is left open — `isOpen()` returns true, contradicting the claim that such
a device is never left open. -/
theorem open_termfetch_fail_counterexample :
    (openDev sampleInit [85] 0 2000 0 2 [] (-1) 10 [] 0 [] (-1) []).1 =
      false ∧
    isOpen (openDev sampleInit [85] 0 2000 0 2 [] (-1) 10 [] 0 []
      (-1) []).2.1 = true := by
  decide

/-- C2 (amended): when the device handle is opened successfully but the
terminator fetch fails, `open` returns false and `close()` is invoked;
provided the underlying `viClose` call succeeds, the device is not open
afterwards. -/
theorem open_termfetch_fail_reports_failure_and_closes (st : VISADevice)
    (dstr : Bytes) (am tmo : Nat) (oS : Int) (dN : Nat) (dO : Bytes)
    (tS : Int) (tv : Nat) (dT : Bytes) (wS : Int) (dW : Bytes)
    (cS : Int) (dC : Bytes)
    (hinit : st.initialized_ = true) (ho : VI_SUCCESS ≤ oS)
    (ht : tS < VI_SUCCESS) (hc : VI_SUCCESS ≤ cS) :
    (openDev st dstr am tmo oS dN dO tS tv dT wS dW cS dC).1 = false ∧
    isOpen (openDev st dstr am tmo oS dN dO tS tv dT wS dW cS dC).2.1 =
      false := by
  unfold openDev isOpen
  simp [hinit, ho, ht, hc, processStatus_of_success,
    processStatus_fst_of_fail, close_success]

/-- C2 witness: a concrete run where `viOpen` succeeds, the terminator
fetch fails and `viClose` succeeds: `open` reports failure and the device
ends up not open. -/
theorem open_termfetch_fail_reports_failure_and_closes_witness :
    ((openDev sampleInit [85] 0 2000 0 2 [] (-1) 10 [] 0 [] 0 []).1 =
      false ∧
    isOpen (openDev sampleInit [85] 0 2000 0 2 [] (-1) 10 [] 0 []
      0 []).2.1 = false) :=
  open_termfetch_fail_reports_failure_and_closes sampleInit [85] 0 2000
    0 2 [] (-1) 10 [] 0 [] 0 [] (by decide) (by decide) (by decide)
    (by decide)

/-- C3: after a successful `open` (handle opened and terminator `tv`
fetched), a `write(msg)` on the open, initialized device hands the driver
a buffer that is exactly `msg` followed by the terminator byte fetched at
open time: `len(msg) + 1` bytes, the first `len(msg)` of which are `msg`
and the last of which is `tv` — no other escaping or encoding.  (`hlen`
bounds the `ViUInt32` size cast within defined behaviour.) -/
theorem write_after_open_sends_framed_msg (st : VISADevice) (dstr : Bytes)
    (am tmo : Nat) (oS : Int) (dN : Nat) (dO : Bytes) (tS : Int) (tv : Nat)
    (dT : Bytes) (wS0 : Int) (dW0 : Bytes) (cS0 : Int) (dC0 : Bytes)
    (msg : Bytes) (wS : Int) (dW : Bytes)
    (hinit : st.initialized_ = true) (ho : VI_SUCCESS ≤ oS)
    (ht : VI_SUCCESS ≤ tS) (htv : tv < 256)
    (hlen : msg.length + 1 < 2 ^ 32) :
    (write (openDev st dstr am tmo oS dN dO tS tv dT wS0 dW0 cS0 dC0).2.1
        msg wS dW).2.2.head? =
      some (DriverCall.writeDev dN (msg ++ [tv])) ∧
    (msg ++ [tv]).length = msg.length + 1 ∧
    (msg ++ [tv]).take msg.length = msg ∧
    (msg ++ [tv]).getLast? = some tv := by
  rw [openDev_success_eq st dstr am tmo oS dN dO tS tv dT wS0 dW0 cS0 dC0
    hinit ho ht]
  unfold write writeBuf frameMsg
  refine ⟨?_, ?_, ?_, ?_⟩
  · simp [hinit, Nat.mod_eq_of_lt htv]
  · simp
  · simp [List.take_left]
  · simp [List.getLast?_concat]

/-- C3 witness: a concrete successful open with terminator byte 10
followed by `write [65, 66]` hands the driver the 3-byte buffer
`[65, 66, 10]`. -/
theorem write_after_open_sends_framed_msg_witness :
    ((write (openDev sampleInit [85] 0 2000 0 2 [] 0 10 [] 0 [] 0 []).2.1
        [65, 66] 0 []).2.2.head? =
      some (DriverCall.writeDev 2 ([65, 66] ++ [10])) ∧
    ([65, 66] ++ [10] : Bytes).length = [65, 66].length + 1 ∧
    ([65, 66] ++ [10] : Bytes).take [65, 66].length = [65, 66] ∧
    ([65, 66] ++ [10] : Bytes).getLast? = some 10) :=
  write_after_open_sends_framed_msg sampleInit [85] 0 2000 0 2 [] 0 10 []
    0 [] 0 [] [65, 66] 0 [] (by decide) (by decide) (by decide) (by decide)
    (by decide)

/-- C8: `close()` on a not-open device returns true and makes no driver
call (idempotent already-closed success), and after a successful `open`
whose first `close` has a succeeding `viClose`, calling `close` twice
returns true both times — the second call touching nothing. -/
theorem close_idempotent_after_open (st : VISADevice) (dstr : Bytes)
    (am tmo : Nat) (oS : Int) (dN : Nat) (dO : Bytes) (tS : Int) (tv : Nat)
    (dT : Bytes) (wS0 : Int) (dW0 : Bytes) (cS0 : Int) (dC0 : Bytes)
    (wS1 : Int) (dW1 : Bytes) (cS1 : Int) (dC1 : Bytes)
    (wS2 : Int) (dW2 : Bytes) (cS2 : Int) (dC2 : Bytes)
    (hinit : st.initialized_ = true) (ho : VI_SUCCESS ≤ oS)
    (ht : VI_SUCCESS ≤ tS) (hc : VI_SUCCESS ≤ cS1) :
    (∀ st' wS dW cS dC, st'.open_ = false →
        close st' wS dW cS dC = (true, st', [])) ∧
    (close (openDev st dstr am tmo oS dN dO tS tv dT wS0 dW0 cS0 dC0).2.1
        wS1 dW1 cS1 dC1).1 = true ∧
    (close (close (openDev st dstr am tmo oS dN dO tS tv dT wS0 dW0 cS0
        dC0).2.1 wS1 dW1 cS1 dC1).2.1 wS2 dW2 cS2 dC2) =
      (true,
        (close (openDev st dstr am tmo oS dN dO tS tv dT wS0 dW0 cS0
          dC0).2.1 wS1 dW1 cS1 dC1).2.1, []) := by
  have part1 : ∀ st' wS dW cS dC, st'.open_ = false →
      close st' wS dW cS dC = (true, st', []) := by
    intro st' wS dW cS dC h
    unfold close
    simp [h]
  have h2 := close_success
    (openDev st dstr am tmo oS dN dO tS tv dT wS0 dW0 cS0 dC0).2.1
    wS1 dW1 cS1 dC1 hc
  exact ⟨part1, h2.1, part1 _ wS2 dW2 cS2 dC2 h2.2⟩

/-- C8 witness: a concrete successful open-close-close run: both closes
return true, the second one making no driver call. -/
theorem close_idempotent_after_open_witness :
    ((∀ st' wS dW cS dC, st'.open_ = false →
        close st' wS dW cS dC = (true, st', [])) ∧
    (close (openDev sampleInit [85] 0 2000 0 2 [] 0 10 [] 0 [] 0 []).2.1
        0 [] 0 []).1 = true ∧
    (close (close (openDev sampleInit [85] 0 2000 0 2 [] 0 10 [] 0 [] 0
        []).2.1 0 [] 0 []).2.1 1 [] 1 []) =
      (true,
        (close (openDev sampleInit [85] 0 2000 0 2 [] 0 10 [] 0 [] 0
          []).2.1 0 [] 0 []).2.1, [])) :=
  close_idempotent_after_open sampleInit [85] 0 2000 0 2 [] 0 10 [] 0 []
    0 [] 0 [] 0 [] 1 [] 1 [] (by decide) (by decide) (by decide)
    (by decide)

/-- Helper: when every `viFindNext` response succeeds, the loop fills one
entry per response: the NUL-truncated contents of the NUL-terminated
256-byte buffer each response leaves. -/
theorem findNextLoop_all_success (resp : List FindResp) (st : VISADevice)
    (hall : ∀ r ∈ resp, VI_SUCCESS ≤ r.status) :
    (findNextLoop st resp resp.length).1 =
      resp.map (fun r =>
        cString ((r.buf.take VI_FIND_BUFLEN).set (VI_FIND_BUFLEN - 1) 0)) := by
  induction resp generalizing st with
  | nil => simp [findNextLoop]
  | cons r rest ih =>
    have hr : VI_SUCCESS ≤ r.status := hall r (List.mem_cons_self r rest)
    have hrest : ∀ x ∈ rest, VI_SUCCESS ≤ x.status := fun x hx =>
      hall x (List.mem_cons_of_mem r hx)
    show (findNextLoop st (r :: rest) (rest.length + 1)).1 = _
    unfold findNextLoop
    rw [processStatus_of_success _ _ _ hr]
    simp [ih st hrest]

/-- C9: when discovery succeeds (reporting `retSize` matches, one more
than the `viFindNext` responses consumed) and every `viFindNext` step
succeeds, the first element of the returned list is the raw 256-byte
buffer content — always exactly `VI_FIND_BUFLEN` characters, including
any bytes past the identifier's terminating NUL — while every subsequent
element is the buffer truncated at its first NUL byte (in particular it
contains no NUL). -/
theorem findInstruments_first_fixed_rest_truncated (st : VISADevice)
    (expr : Bytes) (fStatus : Int) (retSize : Nat) (firstBuf : Bytes)
    (descBuf : Bytes) (resp : List FindResp)
    (hinit : st.initialized_ = true) (hf : VI_SUCCESS ≤ fStatus)
    (hret : retSize = resp.length + 1)
    (hbuf : firstBuf.length = VI_FIND_BUFLEN)
    (hall : ∀ r ∈ resp, VI_SUCCESS ≤ r.status) :
    (findInstruments st expr fStatus retSize firstBuf descBuf resp).1 =
      firstBuf :: resp.map (fun r =>
        cString ((r.buf.take VI_FIND_BUFLEN).set (VI_FIND_BUFLEN - 1) 0)) ∧
    ((findInstruments st expr fStatus retSize firstBuf descBuf
        resp).1.headI).length = VI_FIND_BUFLEN ∧
    ∀ b ∈ (findInstruments st expr fStatus retSize firstBuf descBuf
        resp).1.tail, (0 : Nat) ∉ b := by
  subst hret
  have hfirst : firstBuf.take VI_FIND_BUFLEN = firstBuf := by
    rw [← hbuf, List.take_length]
  have hmain :
      (findInstruments st expr fStatus (resp.length + 1) firstBuf descBuf
        resp).1 =
      firstBuf :: resp.map (fun r =>
        cString ((r.buf.take VI_FIND_BUFLEN).set (VI_FIND_BUFLEN - 1) 0)) := by
    unfold findInstruments
    rw [processStatus_of_success _ _ _ hf]
    simp [hinit, hfirst, findNextLoop_all_success resp st hall]
  refine ⟨hmain, ?_, ?_⟩
  · rw [hmain]
    simpa using hbuf
  · intro b hb
    rw [hmain] at hb
    simp only [List.tail_cons, List.mem_map] at hb
    obtain ⟨r, _, rfl⟩ := hb
    intro h0
    have hp := List.mem_takeWhile_imp h0
    simp at hp

set_option maxRecDepth 4000 in
/-- C9 witness: a concrete discovery reporting two matches, the first
buffer holding a NUL at position 1 with junk after it, the second match
buffer holding a NUL at position 2: the first returned entry is the whole
256-byte buffer, the second is cut at its first NUL. -/
theorem findInstruments_first_fixed_rest_truncated_witness :
    ((findInstruments sampleInit [85] 0 2
        (85 :: 0 :: List.replicate 254 66) []
        [⟨0, 67 :: 68 :: 0 :: 69 :: List.replicate 252 70, []⟩]).1 =
      (85 :: 0 :: List.replicate 254 66) ::
        [(⟨0, 67 :: 68 :: 0 :: 69 :: List.replicate 252 70, []⟩ : FindResp)].map
          (fun r =>
            cString ((r.buf.take VI_FIND_BUFLEN).set (VI_FIND_BUFLEN - 1) 0)) ∧
    ((findInstruments sampleInit [85] 0 2
        (85 :: 0 :: List.replicate 254 66) []
        [⟨0, 67 :: 68 :: 0 :: 69 :: List.replicate 252 70, []⟩]).1.headI).length =
      VI_FIND_BUFLEN ∧
    ∀ b ∈ (findInstruments sampleInit [85] 0 2
        (85 :: 0 :: List.replicate 254 66) []
        [⟨0, 67 :: 68 :: 0 :: 69 :: List.replicate 252 70, []⟩]).1.tail,
      (0 : Nat) ∉ b) :=
  findInstruments_first_fixed_rest_truncated sampleInit [85] 0 2
    (85 :: 0 :: List.replicate 254 66) []
    [⟨0, 67 :: 68 :: 0 :: 69 :: List.replicate 252 70, []⟩]
    (by decide) (by decide) (by decide) (by decide) (by decide)

end VISA
